import Mathlib

/-!
Verification of the session-token authentication scheme and the OAuth
access-token cache of the zoho-desk-api proxy repository.

The JavaScript sources are shallowly embedded below.  Times are modelled
as integers of milliseconds (JS Date.now), strings as Lean strings, and
the HMAC-SHA256 primitive as an explicit function parameter
mac : secret, message to tag, since the cryptographic hash itself is an
external collaborator of the code under specification.  Network calls
are modelled by passing the response of the collaborator (OAuth
provider, Desk API) as an explicit oracle argument, and each embedded
operation reports in its result whether it issued the call.
-/

namespace ZohoDesk

/-! ## JavaScript string and number primitives

The fragment of the JS semantics the sources exercise: splitting a
string on a separator character, trimming, decimal integer parsing
(Number) and rendering (String), and case-insensitive substring
search (the regex test used for rate-limit classification).  The
Number model covers optional-sign decimal-integer strings and the
empty string (which JS parses as 0); other numeric notations
(fractions, exponents, hex, Infinity) are outside the modelled
fragment and are mapped, like NaN, to parse failure.
-/

/-- Splits a character list on a separator, keeping empty groups, the
way the JS String.prototype.split splits on a one-character separator. -/
def splitChar (sep : Char) : List Char → List (List Char)
  | [] => [[]]
  | c :: rest =>
    if c = sep then [] :: splitChar sep rest
    else
      match splitChar sep rest with
      | [] => [[c]]
      | g :: gs => (c :: g) :: gs

theorem splitChar_ne_nil (sep : Char) (l : List Char) : splitChar sep l ≠ [] := by
  cases l with
  | nil => simp [splitChar]
  | cons c rest =>
    simp only [splitChar]
    split
    · simp
    · split <;> simp

/-- Splitting a list built around an explicit separator occurrence
concatenates the splits of the two sides. -/
theorem splitChar_append (sep : Char) (xs ys : List Char) :
    splitChar sep (xs ++ sep :: ys) = splitChar sep xs ++ splitChar sep ys := by
  induction xs with
  | nil => simp [splitChar]
  | cons c rest ih =>
    show splitChar sep (c :: (rest ++ sep :: ys)) = splitChar sep (c :: rest) ++ splitChar sep ys
    by_cases hc : c = sep
    · subst hc
      simp only [splitChar, if_pos rfl]
      rw [ih]
      simp
    · simp only [splitChar, hc, if_false]
      rw [ih]
      cases h : splitChar sep rest with
      | nil => exact absurd h (splitChar_ne_nil sep rest)
      | cons g gs => simp

/-- Splitting a list that does not contain the separator yields the
single group holding the whole list. -/
theorem splitChar_no_sep (sep : Char) (xs : List Char)
    (h : ∀ c ∈ xs, c ≠ sep) : splitChar sep xs = [xs] := by
  induction xs with
  | nil => simp [splitChar]
  | cons c rest ih =>
    have hc : c ≠ sep := h c (List.mem_cons_self c rest)
    have hr : splitChar sep rest = [rest] := ih fun d hd => h d (List.mem_cons_of_mem c hd)
    simp [splitChar, hc, hr]

/-- Splitting the token string of the sources: token.split of the dot. -/
def splitDot (s : String) : List (List Char) := splitChar '.' s.data

/-- Decimal digit to its character, as in the decimal rendering of a
JS number. -/
def digitToChar (d : Nat) : Char := Char.ofNat (48 + d)

/-- Character back to a decimal digit value. -/
def charToDigit (c : Char) : Nat := c.toNat - 48

/-- Decidable test for a decimal digit character. -/
def isDigitChar (c : Char) : Bool := 48 ≤ c.toNat && c.toNat ≤ 57

/-- Fuel-driven extraction of the decimal digit characters of n, least
significant first; the fuel bounds the recursion depth structurally so
the function reduces inside the kernel. -/
def renderNatAux : Nat → Nat → List Char
  | 0, _ => []
  | fuel + 1, n => if n = 0 then [] else digitToChar (n % 10) :: renderNatAux fuel (n / 10)

/-- Decimal rendering of a natural number, the String conversion JS
applies to a nonnegative integer. -/
def renderNat (n : Nat) : String :=
  if n = 0 then "0" else ⟨(renderNatAux n n).reverse⟩

theorem renderNatAux_eq_digits : ∀ fuel n, n ≤ fuel →
    renderNatAux fuel n = (Nat.digits 10 n).map digitToChar := by
  intro fuel
  induction fuel with
  | zero =>
    intro n hn
    interval_cases n
    simp [renderNatAux]
  | succ fuel ih =>
    intro n hn
    by_cases h0 : n = 0
    · subst h0
      simp [renderNatAux]
    · have hpos : 0 < n := Nat.pos_of_ne_zero h0
      unfold renderNatAux
      rw [if_neg h0, Nat.digits_def' (by norm_num) hpos, List.map_cons,
        ih (n / 10) (by omega)]

/-- Digits-based closed form of renderNat, used by the proofs. -/
theorem renderNat_eq (n : Nat) :
    renderNat n = if n = 0 then "0" else ⟨((Nat.digits 10 n).map digitToChar).reverse⟩ := by
  unfold renderNat
  by_cases h0 : n = 0
  · simp [h0]
  · rw [if_neg h0, if_neg h0, renderNatAux_eq_digits n n le_rfl]

/-- Decimal parsing of an all-digit string to a natural number. -/
def parseNat (s : String) : Option Nat :=
  if !s.data.isEmpty && s.data.all isDigitChar then
    some (Nat.ofDigits 10 ((s.data.map charToDigit).reverse))
  else none

/-- Model of the JS Number conversion on the modelled fragment:
the empty string is 0, an optional sign followed by decimal digits is
the signed value, everything else is a parse failure (NaN). -/
def jsNumberInt (s : String) : Option Int :=
  match s.data with
  | [] => some 0
  | c :: rest =>
    if c = '-' then (parseNat ⟨rest⟩).map fun n => -(n : Int)
    else if c = '+' then (parseNat ⟨rest⟩).map fun n => (n : Int)
    else (parseNat s).map fun n => (n : Int)

/-- Model of the JS String conversion of an integer. -/
def jsRenderInt (i : Int) : String :=
  if i < 0 then "-" ++ renderNat i.natAbs else renderNat i.toNat

theorem digitToChar_toNat {d : Nat} (h : d < 10) : (digitToChar d).toNat = 48 + d := by
  interval_cases d <;> rfl

theorem charToDigit_digitToChar {d : Nat} (h : d < 10) :
    charToDigit (digitToChar d) = d := by
  interval_cases d <;> rfl

theorem isDigitChar_digitToChar {d : Nat} (h : d < 10) :
    isDigitChar (digitToChar d) = true := by
  interval_cases d <;> rfl

theorem renderNat_data_all_digits (n : Nat) :
    (renderNat n).data.all isDigitChar = true := by
  rw [renderNat_eq]
  split
  · rfl
  · rename_i hn
    simp only [List.all_eq_true, List.mem_reverse, List.mem_map]
    rintro c ⟨d, hd, rfl⟩
    exact isDigitChar_digitToChar (Nat.digits_lt_base (by norm_num) hd)

theorem renderNat_data_ne_nil (n : Nat) : (renderNat n).data ≠ [] := by
  rw [renderNat_eq]
  split
  · simp [String.data]
  · rename_i hn
    simp only [ne_eq, List.reverse_eq_nil_iff, List.map_eq_nil_iff]
    exact Nat.digits_ne_nil_iff_ne_zero.mpr hn

/-- Parsing inverts rendering: the decimal rendering of a natural
number parses back to the same number. -/
theorem parseNat_renderNat (n : Nat) : parseNat (renderNat n) = some n := by
  by_cases h0 : n = 0
  · subst h0; decide
  · have hdig : ∀ d ∈ Nat.digits 10 n, d < 10 := fun d hd =>
      Nat.digits_lt_base (by norm_num) hd
    have hne : Nat.digits 10 n ≠ [] := Nat.digits_ne_nil_iff_ne_zero.mpr h0
    rw [renderNat_eq]
    unfold parseNat
    simp only [h0, if_false]
    have hall : (((Nat.digits 10 n).map digitToChar).reverse).all isDigitChar = true := by
      simp only [List.all_eq_true, List.mem_reverse, List.mem_map]
      rintro c ⟨d, hd, rfl⟩
      exact isDigitChar_digitToChar (hdig d hd)
    have hemp : (((Nat.digits 10 n).map digitToChar).reverse).isEmpty = false := by
      simp [List.isEmpty_iff, hne]
    rw [hall, hemp]
    have hmap : (Nat.digits 10 n).map (charToDigit ∘ digitToChar)
        = (Nat.digits 10 n).map id := by
      apply List.map_congr_left
      intro d hd
      exact charToDigit_digitToChar (hdig d hd)
    simp [List.map_reverse, List.reverse_reverse, List.map_map, hmap, Nat.ofDigits_digits]

theorem renderNat_head_not_sign (n : Nat) :
    ∀ c, (renderNat n).data.head? = some c → c ≠ '-' ∧ c ≠ '+' ∧ c ≠ '.' := by
  intro c hc
  have hall := renderNat_data_all_digits n
  rw [List.all_eq_true] at hall
  have hmem : c ∈ (renderNat n).data := by
    cases h : (renderNat n).data with
    | nil => rw [h] at hc; cases hc
    | cons a l =>
      rw [h, List.head?_cons] at hc
      cases hc
      exact List.mem_cons_self _ _
  have hd := hall c hmem
  refine ⟨?_, ?_, ?_⟩ <;> rintro rfl <;> exact absurd hd (by decide)

/-- Number applied to the rendering of a natural number recovers it. -/
theorem jsNumberInt_renderNat (n : Nat) : jsNumberInt (renderNat n) = some (n : Int) := by
  cases h : (renderNat n).data with
  | nil => exact absurd h (renderNat_data_ne_nil n)
  | cons c rest =>
    have hc := renderNat_head_not_sign n c (by rw [h, List.head?_cons])
    unfold jsNumberInt
    rw [h]
    simp [hc.1, hc.2.1, parseNat_renderNat]

theorem jsRenderInt_ofNat (n : Nat) : jsRenderInt (n : Int) = renderNat n := by
  unfold jsRenderInt
  simp

theorem jsNumberInt_jsRenderInt_nonneg {e : Int} (h : 0 ≤ e) :
    jsNumberInt (jsRenderInt e) = some e := by
  obtain ⟨n, rfl⟩ := Int.eq_ofNat_of_zero_le h
  rw [jsRenderInt_ofNat, jsNumberInt_renderNat]

theorem renderNat_no_dot (n : Nat) : ∀ c ∈ (renderNat n).data, c ≠ '.' := by
  intro c hmem
  have hall := renderNat_data_all_digits n
  rw [List.all_eq_true] at hall
  have hd := hall c hmem
  rintro rfl
  exact absurd hd (by decide)

/-! ## Cookie parsing

Embedding of the parseCookies helper shared by the handlers: the
header splits on semicolons, each part is trimmed, split on the equals
sign, the first group is the key and the remaining groups are rejoined
with equals signs; parts with an empty key are skipped and a later
binding of the same key overrides an earlier one.
-/

/-- Whitespace and line-terminator test of the JS trim: space, tab,
line feed, vertical tab, form feed, carriage return, no-break space,
line and paragraph separators and the byte-order mark. -/
def isSpaceChar (c : Char) : Bool :=
  c.toNat = 32 || c.toNat = 9 || c.toNat = 10 || c.toNat = 11 || c.toNat = 12
    || c.toNat = 13 || c.toNat = 160 || c.toNat = 8232 || c.toNat = 8233
    || c.toNat = 65279

/-- Model of String.prototype.trim. -/
def jsTrim (l : List Char) : List Char :=
  ((l.dropWhile isSpaceChar).reverse.dropWhile isSpaceChar).reverse

/-- Rejoin of the remaining split groups with the equals sign, as in
rest.join of the sources. -/
def joinWithEq : List (List Char) → List Char
  | [] => []
  | [g] => g
  | g :: gs => g ++ '=' :: joinWithEq gs

/-- One part of the cookie header: trimmed, split on equality, first
group the key; a falsy key is skipped. -/
def parseCookiePair (part : List Char) : Option (String × String) :=
  match splitChar '=' (jsTrim part) with
  | [] => none
  | key :: rest => if key.isEmpty then none else some (⟨key⟩, ⟨joinWithEq rest⟩)

/-- Model of the parseCookies helper of the handlers. -/
def parseCookies (header : String) : List (String × String) :=
  (splitChar ';' header.data).filterMap parseCookiePair

/-- Cookie lookup; the reduce of the source lets a later duplicate key
overwrite an earlier one, hence the reverse before the first-match
lookup. -/
def getCookie (header : String) (name : String) : Option String :=
  ((parseCookies header).reverse).lookup name

/-! ## Full numeric model

Exact-rational model of the JS Number conversion of a string, used by
the TTL configuration path, the one consumer that meets non-integer
values: whitespace is trimmed; the empty remainder is 0; an optional
sign may precede a decimal literal with optional fraction and
exponent; an unsigned literal may also be a hex, octal or binary
integer; anything else is NaN (a parse failure).  The binary64 range
is respected exactly at its boundaries: a magnitude at or above
2^1024 - 2^970 rounds to an infinity, which fails the
Number.isFinite test just as NaN does and is therefore a parse
failure here, and a nonzero magnitude at or below 2^(-1075) rounds to
zero.  Values inside the range are kept as exact rationals: the
at-most-one-ulp rounding of binary64 parsing and arithmetic is
outside the embedding.  jsNumberInt above is the optional-sign
whole-decimal fragment of this conversion, used by the
token-verification path where every issued expiry is a whole number
of milliseconds.
-/

/-- Environment configuration consumed by the authenticator. -/
structure AuthConfig where
  PORTAL_PASSWORD : Option String
  AUTH_SECRET : Option String
  AUTH_TTL_HOURS : Option String
deriving DecidableEq

/-- Model of the JS expression a OR b over possibly-undefined strings,
where undefined and the empty string are falsy. -/
def jsOrStr (a b : Option String) : String :=
  let sa := a.getD ""
  if sa = "" then b.getD "" else sa

/-- Embedding of the timingSafeEqual wrapper: buffers of different
length compare false, equal-length buffers compare byte for byte. -/
def timingSafeEqual (a b : String) : Bool :=
  if a.data.length ≠ b.data.length then false else a == b

/-- Embedding of sign from auth.js: the MAC of the decimal rendering
of the expiry under the secret. -/
def sign (mac : String → String → String) (expiresAt : Int) (secret : String) : String :=
  mac secret (jsRenderInt expiresAt)

/-- Embedding of verifyToken from auth.js, lines 27 to 34.  The token
splits on dots, destructuring takes the first two groups; the expected
signature is recomputed over the decimal re-rendering of the parsed
expiry. -/
def verifyToken (mac : String → String → String) (token : String) (secret : String)
    (now : Int) : Bool :=
  if token = "" then false
  else
    let parts := splitDot token
    let expStr : String := ⟨parts.headD []⟩
    let signature : String := ⟨(parts[1]?).getD []⟩
    match jsNumberInt expStr with
    | none => false
    | some expiresAt =>
      if expStr = "" || signature = "" || decide (expiresAt < now) then false
      else timingSafeEqual (sign mac expiresAt secret) signature

/-- Embedding of the token-level body of verifyAuth as replicated in
the proxy handlers (tickets.js lines 42 to 48): identical to
verifyToken except that the expected signature is recomputed over the
raw expiry substring. -/
def verifyAuthTok (mac : String → String → String) (secret : String) (token : String)
    (now : Int) : Bool :=
  let parts := splitDot token
  let expStr : String := ⟨parts.headD []⟩
  let signature : String := ⟨(parts[1]?).getD []⟩
  match jsNumberInt expStr with
  | none => false
  | some expiresAt =>
    if expStr = "" || signature = "" || decide (expiresAt < now) then false
    else timingSafeEqual (mac secret expStr) signature

/-- Inbound request data the modelled handlers consume. -/
structure Event where
  cookieHeader : Option String
  queryId : Option String
deriving DecidableEq

/-- Embedding of verifyAuth from the proxy handlers, lines 36 to 49:
secret fallback, cookie extraction, then the token-level check. -/
def verifyAuth (mac : String → String → String) (cfg : AuthConfig) (now : Int)
    (event : Event) : Bool :=
  let secret := jsOrStr cfg.AUTH_SECRET cfg.PORTAL_PASSWORD
  if secret = "" then false
  else
    match getCookie (event.cookieHeader.getD "") "authToken" with
    | none => false
    | some token => if token = "" then false else verifyAuthTok mac secret token now

/-- Whole-decimal view of the ttlHours computation, over the
jsNumberInt fragment of the Number conversion. -/
def ttlHoursInt (cfg : AuthConfig) : Option Int :=
  match cfg.AUTH_TTL_HOURS with
  | none => some 24
  | some s => if s = "" then some 24 else jsNumberInt s

/-- Integer-configuration view of TOKEN_TTL_MS: the same computation
over the whole-decimal fragment.  It agrees with TOKEN_TTL_MS on every
configuration that is absent, empty or an optional-sign whole-decimal
numeral inside the binary64 range (fourth conjunct of the TTL
theorem).  The session-window theorem and the handler embedding use
this view: its TTLs are whole numbers of milliseconds, the only TTLs
for which the serialized dot-separated token format round-trips. -/
def TOKEN_TTL_MS_int (cfg : AuthConfig) : Int :=
  (match ttlHoursInt cfg with
   | some h => if 0 < h then h else 24
   | none => 24) * 60 * 60 * 1000

/-- Result of generateToken: the signed serialized token and the
expiry it embeds. -/
structure IssuedToken where
  expiresAt : Int
  token : String
deriving DecidableEq

/-- Embedding of generateToken from auth.js lines 36 to 40. -/
def generateToken (mac : String → String → String) (secret : String) (ttlMs : Int)
    (now : Int) : IssuedToken :=
  let expiresAt := now + ttlMs
  ⟨expiresAt, jsRenderInt expiresAt ++ "." ++ sign mac expiresAt secret⟩

/-- Response of the session endpoint, with the Set-Cookie directives
of interest (token value and Max-Age seconds). -/
structure AuthResp where
  statusCode : Nat
  errorMsg : Option String
  setCookieToken : Option String
  setCookieMaxAge : Option Int
deriving DecidableEq

/-- Embedding of the POST branch of the auth.js handler (lines 52 to
103): configuration check, falsy-password rejection, constant-time
comparison against the portal password, then token issuance with the
cookie directives. -/
def authHandlerPost (mac : String → String → String) (cfg : AuthConfig) (now : Int)
    (password : String) : AuthResp :=
  let secret := jsOrStr cfg.AUTH_SECRET cfg.PORTAL_PASSWORD
  let portalPw := cfg.PORTAL_PASSWORD.getD ""
  if secret = "" || portalPw = "" then ⟨500, some "Configuration manquante", none, none⟩
  else if password = "" then ⟨401, some "Mot de passe incorrect", none, none⟩
  else if !timingSafeEqual password portalPw then ⟨401, some "Mot de passe incorrect", none, none⟩
  else
    let issued := generateToken mac secret (TOKEN_TTL_MS_int cfg) now
    ⟨200, none, some issued.token, some (TOKEN_TTL_MS_int cfg / 1000)⟩

/-! ## Upstream Token Cache

Embedding of the getAccessToken variants.  Most handlers carry the
plain variant (tickets.js lines 59 to 85): fast path on a fresh cached
token, otherwise an unconditional refresh exchange.  The
ticketMessages handler (part_000 lines 59 to 101) adds the tokenPromise
single-flight marker and the rate-limit classification of the refresh
failure.  The OAuth collaborator response is an oracle argument and
each function reports whether it issued the outbound call.
-/

/-- Response of the OAuth token endpoint as consumed by the sources. -/
structure OAuthResponse where
  ok : Bool
  access_token : String
  expires_in : Option Int
  error : Option String
  error_description : Option String
deriving DecidableEq

/-- Error thrown by getAccessToken; only the part_000 variant ever
sets the rateLimited flag. -/
structure OAuthErr where
  rateLimited : Bool
deriving DecidableEq

/-- Model of the JS expression v OR default over a possibly-undefined
number, where undefined and 0 are falsy. -/
def jsOrNum (o : Option Int) (d : Int) : Int :=
  match o with
  | none => d
  | some v => if v = 0 then d else v

/-- Case-insensitive prefix test over characters. -/
def leadsWith : List Char → List Char → Bool
  | [], _ => true
  | _ :: _, [] => false
  | a :: as, b :: bs => a == b && leadsWith as bs

/-- Substring test over characters. -/
def containsSub (needle : List Char) : List Char → Bool
  | [] => needle.isEmpty
  | c :: t => leadsWith needle (c :: t) || containsSub needle t

/-- Model of the case-insensitive regex test of part_000 line 85:
lowercase both sides, then substring search. -/
def containsCI (hay needle : String) : Bool :=
  containsSub (needle.data.map Char.toLower) (hay.data.map Char.toLower)

/-- Embedding of the rate-limit classification of part_000 lines 84 to
87: an Access Denied error whose description contains, case
insensitively, the words too many requests. -/
def classifyOAuthError (data : OAuthResponse) : OAuthErr :=
  ⟨data.error == some "Access Denied"
    && containsCI (data.error_description.getD "") "too many requests"⟩

/-- Shared module-level cache state of the plain handlers. -/
structure TokenCache where
  cachedAccessToken : Option String
  accessTokenExpiry : Int
deriving DecidableEq

/-- Embedding of the plain getAccessToken (tickets.js lines 59 to 85,
identical in ticketHistory.js, ticketConversations.js,
addTicketResolution.js, part_001, part_002, part_003): fast path when
a cached token exists and now is before expiry minus 60000 ms,
otherwise one refresh exchange whose failure carries no rate-limit
tag.  The Bool of the result records whether the outbound OAuth call
was issued. -/
def getAccessTokenPlain (now : Int) (s : TokenCache) (net : OAuthResponse) :
    Except OAuthErr String × TokenCache × Bool :=
  if s.cachedAccessToken.isSome && decide (now < s.accessTokenExpiry - 60000) then
    (.ok (s.cachedAccessToken.getD ""), s, false)
  else if net.ok then
    let tok := net.access_token
    (.ok tok, ⟨some tok, now + jsOrNum net.expires_in 3600 * 1000⟩, true)
  else
    (.error ⟨false⟩, s, true)

/-- Cache state of the part_000 variant, with the in-flight
tokenPromise marker holding the identifier of the pending refresh. -/
structure SfState where
  cachedAccessToken : Option String
  accessTokenExpiry : Int
  tokenPromise : Option Nat
deriving DecidableEq

/-- Outcome of the synchronous prefix of one Acquire call in the
part_000 variant: return the cached token, join the pending flight, or
start a new flight. -/
inductive AcquireStart where
  | hitCache (tok : String)
  | joined (fid : Nat)
  | started (fid : Nat)
deriving DecidableEq

/-- Synchronous prefix of part_000 getAccessToken lines 59 to 69: the
fast path, then the join of a pending flight, then the start of a new
flight which publishes the tokenPromise marker before suspending. -/
def getAccessTokenStartSF (forceRefresh : Bool) (now : Int) (s : SfState)
    (freshFid : Nat) : AcquireStart × SfState :=
  if !forceRefresh && s.cachedAccessToken.isSome
      && decide (now < s.accessTokenExpiry - 60000) then
    (.hitCache (s.cachedAccessToken.getD ""), s)
  else
    match s.tokenPromise with
    | some fid => (.joined fid, s)
    | none => (.started freshFid, { s with tokenPromise := some freshFid })

/-- Value every caller attached to a flight receives once the OAuth
response arrives (part_000 lines 81 to 93). -/
def flightResult (net : OAuthResponse) : Except OAuthErr String :=
  if net.ok then .ok net.access_token else .error (classifyOAuthError net)

/-- State update when the flight completes: the cache is written on
success and the finally of part_000 lines 96 to 100 clears the
tokenPromise marker in every case. -/
def resolveFlightSF (now : Int) (net : OAuthResponse) (s : SfState) : SfState :=
  if net.ok then ⟨some net.access_token, now + jsOrNum net.expires_in 3600 * 1000, none⟩
  else { s with tokenPromise := none }

/-- Value an individual caller obtains given its start outcome and the
result of the flight it is attached to (if any). -/
def callerResult (start : AcquireStart) (r : Except OAuthErr String) :
    Except OAuthErr String :=
  match start with
  | .hitCache t => .ok t
  | .joined _ => r
  | .started _ => r

/-- Sequential single-caller run of part_000 getAccessToken when no
concurrent flight is pending: fast path, or start, await the exchange,
resolve, with the finally clearing the marker. -/
def getAccessTokenSF1 (forceRefresh : Bool) (now : Int) (s : SfState)
    (net : OAuthResponse) : Except OAuthErr String × SfState × Bool :=
  if !forceRefresh && s.cachedAccessToken.isSome
      && decide (now < s.accessTokenExpiry - 60000) then
    (.ok (s.cachedAccessToken.getD ""), s, false)
  else
    (flightResult net, resolveFlightSF now net { s with tokenPromise := some 0 }, true)

/-- Event-loop run of the synchronous prefixes of n concurrent callers
of the plain getAccessToken, none of whose exchanges has yet received
a response: each caller in turn runs its prefix atomically; the prefix
of the plain variant never mutates state, and the Bool records whether
that caller issued its own outbound refresh call. -/
def runStartsPlain : Nat → Int → TokenCache → List Bool
  | 0, _, _ => []
  | n + 1, now, s =>
    (!(s.cachedAccessToken.isSome && decide (now < s.accessTokenExpiry - 60000)))
      :: runStartsPlain n now s

/-- Event-loop run of the synchronous prefixes of n concurrent callers
of the part_000 getAccessToken without forceRefresh, fresh flight
identifiers counting up from fid, before any network response is
delivered. -/
def runStartsSF : Nat → Nat → Int → SfState → List AcquireStart × SfState
  | 0, _, _, s => ([], s)
  | n + 1, fid, now, s =>
    let (o, s1) := getAccessTokenStartSF false now s fid
    let (rest, s2) := runStartsSF n (fid + 1) now s1
    (o :: rest, s2)

/-- Test for a start outcome that issues its own outbound call. -/
def isStarted : AcquireStart → Bool
  | .started _ => true
  | _ => false

/-! ## Proxy handlers -/

/-- Response of a proxy handler, reduced to status code and error
message; the reshaped payload forwarding is the out-of-scope
collaborator concern of the specification. -/
structure Resp where
  statusCode : Nat
  errorMsg : Option String
deriving DecidableEq

/-- Record of which outbound calls a handler issued. -/
structure Trace where
  oauthCalled : Bool
  downstreamCalled : Bool
deriving DecidableEq

/-- Embedding of the unauthorized response of the handlers. -/
def unauthorized : Resp := ⟨401, some "Non authentifié"⟩

/-- Success test of node-fetch: status in the 2xx range. -/
def isOk (status : Nat) : Bool := 200 ≤ status && status < 300

/-- Embedding of the tickets.js handler, lines 87 to 129: session
verification, token acquisition through the plain cache, one Desk
call whose failure maps to 500. -/
def ticketsHandler (mac : String → String → String) (cfg : AuthConfig) (now : Int)
    (event : Event) (s : TokenCache) (oauthNet : OAuthResponse) (deskStatus : Nat) :
    Resp × TokenCache × Trace :=
  if !verifyAuth mac cfg now event then (unauthorized, s, ⟨false, false⟩)
  else
    match getAccessTokenPlain now s oauthNet with
    | (.error _, s2, called) => (⟨500, some "Erreur OAuth Zoho"⟩, s2, ⟨called, false⟩)
    | (.ok _, s2, called) =>
      if isOk deskStatus then (⟨200, none⟩, s2, ⟨called, true⟩)
      else (⟨500, some "Erreur Zoho Desk"⟩, s2, ⟨called, true⟩)

/-- Embedding of the ticketHistory.js handler, lines 45 to 96: the
query parameter check, token acquisition and the Desk history call.
The source performs no session verification before acquiring the
token, and the incoming cookie header is never read. -/
def ticketHistoryHandler (now : Int) (event : Event) (s : TokenCache)
    (oauthNet : OAuthResponse) (deskStatus : Nat) : Resp × TokenCache × Trace :=
  match event.queryId with
  | none => (⟨400, some "Missing ticket id"⟩, s, ⟨false, false⟩)
  | some _ =>
    match getAccessTokenPlain now s oauthNet with
    | (.error _, s2, called) => (⟨500, some "Erreur OAuth Zoho"⟩, s2, ⟨called, false⟩)
    | (.ok _, s2, called) =>
      if isOk deskStatus then (⟨200, none⟩, s2, ⟨called, true⟩)
      else (⟨500, some "Erreur Zoho Desk"⟩, s2, ⟨called, true⟩)

/-- Embedding of the part_000 ticketMessages handler, lines 103 to
178: session verification, query check, acquisition through the
single-flight cache, and the catch that maps a rate-limited OAuth
failure to 429 and every other failure to 500. -/
def ticketMessagesHandler (mac : String → String → String) (cfg : AuthConfig)
    (now : Int) (event : Event) (s : SfState) (oauthNet : OAuthResponse)
    (downstreamStatus : Nat) : Resp × SfState × Trace :=
  if !verifyAuth mac cfg now event then (unauthorized, s, ⟨false, false⟩)
  else
    match event.queryId with
    | none => (⟨400, some "Missing ticket id"⟩, s, ⟨false, false⟩)
    | some _ =>
      match getAccessTokenSF1 false now s oauthNet with
      | (.error e, s2, called) =>
        (⟨if e.rateLimited then 429 else 500,
          some (if e.rateLimited then "Limite de requêtes Zoho atteinte" else "Erreur OAuth Zoho")⟩,
         s2, ⟨called, false⟩)
      | (.ok _, s2, called) =>
        if isOk downstreamStatus then (⟨200, none⟩, s2, ⟨called, true⟩)
        else (⟨downstreamStatus, some "Erreur Zoho Desk"⟩, s2, ⟨called, true⟩)

/-! ## Resolution update retry policy -/

/-- Outcome of the update phase of the resolution handler. -/
structure ResolutionOutcome where
  updateCalls : Nat
  cacheCleared : Bool
  retryToken : Option String
  success : Bool
  cacheAfter : TokenCache
deriving DecidableEq

/-- Embedding of the update phase of the addTicketResolution handler
(part_001 lines 193 to 252; addTicketResolution.js lines 240 to 267
with the payload-shape fallback sequence abstracted as one logical
update call): a successful first update ends there; a 401 first
response clears the cache, acquires a fresh token through the plain
cache and retries the update exactly once, surfacing the retry outcome;
any other failure is surfaced without retry. -/
def resolutionUpdatePhase (s : TokenCache) (now : Int) (firstStatus : Nat)
    (oauthNet : OAuthResponse) (retryStatus : Nat) : ResolutionOutcome :=
  if isOk firstStatus then ⟨1, false, none, true, s⟩
  else if firstStatus = 401 then
    let cleared : TokenCache := ⟨none, 0⟩
    match getAccessTokenPlain now cleared oauthNet with
    | (.ok newToken, s2, _) =>
      if isOk retryStatus then ⟨2, true, some newToken, true, s2⟩
      else ⟨2, true, some newToken, false, s2⟩
    | (.error _, s2, _) => ⟨1, true, none, false, s2⟩
  else ⟨1, false, none, false, s⟩

/-! ## Helper lemmas -/

/-- Concrete stand-in for the HMAC collaborator, used by the closed
evaluations: deterministic, dot-free and nonempty on the inputs used,
and injective in the message for a fixed secret. -/
def macDemo (secret msg : String) : String := secret ++ "x" ++ msg

theorem string_eta (s : String) : (⟨s.data⟩ : String) = s := rfl

theorem string_data_triple (a b : String) :
    (a ++ "." ++ b).data = a.data ++ '.' :: b.data := by
  rw [String.data_append, String.data_append]
  simp

theorem splitDot_append (a b : String) :
    splitDot (a ++ "." ++ b) = splitDot a ++ splitDot b := by
  unfold splitDot
  rw [string_data_triple, splitChar_append]

theorem splitDot_no_dot (s : String) (h : ∀ c ∈ s.data, c ≠ '.') :
    splitDot s = [s.data] := splitChar_no_sep '.' s.data h

theorem timingSafeEqual_iff (a b : String) : timingSafeEqual a b = true ↔ a = b := by
  unfold timingSafeEqual
  split
  · rename_i hlen
    constructor
    · intro h; cases h
    · intro h; subst h; exact absurd rfl hlen
  · exact beq_iff_eq

theorem timingSafeEqual_self (a : String) : timingSafeEqual a a = true :=
  (timingSafeEqual_iff a a).mpr rfl

theorem jsRenderInt_nonneg_eq (e : Int) (h : 0 ≤ e) :
    jsRenderInt e = renderNat e.toNat := by
  unfold jsRenderInt
  rw [if_neg (not_lt.mpr h)]

theorem jsRenderInt_data_ne_nil (e : Int) (h : 0 ≤ e) : (jsRenderInt e).data ≠ [] := by
  rw [jsRenderInt_nonneg_eq e h]
  exact renderNat_data_ne_nil _

theorem jsRenderInt_ne_empty (e : Int) (h : 0 ≤ e) : jsRenderInt e ≠ "" := by
  intro hc
  exact jsRenderInt_data_ne_nil e h (by rw [hc])

theorem jsRenderInt_no_dot (e : Int) (h : 0 ≤ e) :
    ∀ c ∈ (jsRenderInt e).data, c ≠ '.' := by
  rw [jsRenderInt_nonneg_eq e h]
  exact renderNat_no_dot _

theorem string_ne_empty_of_data {s : String} (h : s.data ≠ []) : s ≠ "" := by
  intro hc
  exact h (by rw [hc])

/-- Value of verifyToken on a well-formed issued token whose signature
is the MAC of the rendered expiry: accepted exactly when the expiry is
not strictly in the past. -/
theorem verifyToken_issued_eq (mac : String → String → String) (secret : String)
    (e now : Int) (he : 0 ≤ e)
    (hsne : mac secret (jsRenderInt e) ≠ "")
    (hsnd : ∀ c ∈ (mac secret (jsRenderInt e)).data, c ≠ '.') :
    verifyToken mac (jsRenderInt e ++ "." ++ mac secret (jsRenderInt e)) secret now
      = !decide (e < now) := by
  have hsp : splitDot (jsRenderInt e ++ "." ++ mac secret (jsRenderInt e))
      = [(jsRenderInt e).data, (mac secret (jsRenderInt e)).data] := by
    rw [splitDot_append, splitDot_no_dot _ (jsRenderInt_no_dot e he),
      splitDot_no_dot _ hsnd]
    rfl
  have htne : (jsRenderInt e ++ "." ++ mac secret (jsRenderInt e)) ≠ "" := by
    apply string_ne_empty_of_data
    rw [string_data_triple]
    simp
  have hEe : (⟨(jsRenderInt e).data⟩ : String) = jsRenderInt e := string_eta _
  have hSe : (⟨(mac secret (jsRenderInt e)).data⟩ : String) = mac secret (jsRenderInt e) :=
    string_eta _
  simp only [verifyToken, htne, if_false, hsp, List.headD, List.getElem?_cons_succ,
    List.getElem?_cons_zero, Option.getD_some, hEe, hSe,
    jsNumberInt_jsRenderInt_nonneg he, jsRenderInt_ne_empty e he, hsne, decide_False,
    Bool.false_or, sign]
  by_cases hlt : e < now
  · simp [hlt]
  · simp [hlt, timingSafeEqual_self]

theorem TOKEN_TTL_MS_int_pos (cfg : AuthConfig) : 0 < TOKEN_TTL_MS_int cfg := by
  unfold TOKEN_TTL_MS_int
  cases h : ttlHoursInt cfg with
  | none => norm_num
  | some v =>
    by_cases hv : 0 < v
    · simp only [hv, if_true]
      omega
    · simp only [hv, if_false]
      norm_num

/-- Both verification routines depend on the token only through its
first two dot-separated components (and nonemptiness for verifyToken). -/
theorem verifyToken_eq_of_parts (mac : String → String → String) (secret : String)
    (now : Int) (t1 t2 : String) (h1 : t1 ≠ "") (h2 : t2 ≠ "")
    (hh : (splitDot t1).headD [] = (splitDot t2).headD [])
    (hs : ((splitDot t1)[1]?).getD [] = ((splitDot t2)[1]?).getD []) :
    verifyToken mac t1 secret now = verifyToken mac t2 secret now := by
  simp only [verifyToken, h1, h2, if_false, hh, hs]

theorem verifyAuthTok_eq_of_parts (mac : String → String → String) (secret : String)
    (now : Int) (t1 t2 : String)
    (hh : (splitDot t1).headD [] = (splitDot t2).headD [])
    (hs : ((splitDot t1)[1]?).getD [] = ((splitDot t2)[1]?).getD []) :
    verifyAuthTok mac secret t1 now = verifyAuthTok mac secret t2 now := by
  simp only [verifyAuthTok, hh, hs]

/-- A token that verifies successfully splits into at least two groups,
the second nonempty. -/
theorem splitDot_two_of_signature {token : String}
    (h : (⟨((splitDot token)[1]?).getD []⟩ : String) ≠ "") :
    ∃ p0 p1 rest, splitDot token = p0 :: p1 :: rest := by
  cases hps : splitDot token with
  | nil => exact absurd hps (splitChar_ne_nil '.' token.data)
  | cons p0 tl =>
    cases tl with
    | nil =>
      rw [hps] at h
      simp at h
    | cons p1 rest => exact ⟨p0, p1, rest, rfl⟩

theorem verifyToken_true_signature {mac : String → String → String}
    {secret token : String} {now : Int}
    (h : verifyToken mac token secret now = true) :
    (⟨((splitDot token)[1]?).getD []⟩ : String) ≠ "" := by
  intro hsig
  simp only [verifyToken] at h
  split at h
  · cases h
  · rename_i htne
    rw [hsig] at h
    cases hj : jsNumberInt ⟨(splitDot token).headD []⟩ with
    | none => rw [hj] at h; cases h
    | some e =>
      rw [hj] at h
      simp at h

theorem verifyAuthTok_true_signature {mac : String → String → String}
    {secret token : String} {now : Int}
    (h : verifyAuthTok mac secret token now = true) :
    (⟨((splitDot token)[1]?).getD []⟩ : String) ≠ "" := by
  intro hsig
  simp only [verifyAuthTok] at h
  rw [hsig] at h
  cases hj : jsNumberInt ⟨(splitDot token).headD []⟩ with
  | none => rw [hj] at h; cases h
  | some e =>
    rw [hj] at h
    simp at h

theorem splitDot_trailing {token suffix : String} {p0 p1 : List Char}
    {rest : List (List Char)} (hps : splitDot token = p0 :: p1 :: rest) :
    splitDot (token ++ "." ++ suffix) = p0 :: p1 :: (rest ++ splitDot suffix) := by
  rw [splitDot_append, hps]
  rfl

/-! ## Claim theorems -/

/-- C1.  The spec requires every protected handler to verify the
session before acquiring an upstream token, returning 401 on failure
with no downstream call; the ticketHistory.js handler performs no
session verification at all: its result never depends on the cookie
header, and a request carrying no session cookie still acquires an
OAuth token, calls the Desk API and answers 200. -/
theorem ticketHistory_skips_session_check :
    (∀ (now : Int) (c1 c2 q : Option String) (s : TokenCache) (net : OAuthResponse)
        (d : Nat),
      ticketHistoryHandler now ⟨c1, q⟩ s net d = ticketHistoryHandler now ⟨c2, q⟩ s net d)
    ∧ ticketHistoryHandler 500 ⟨none, some "123"⟩ ⟨none, 0⟩
        ⟨true, "FRESH", some 3600, none, none⟩ 200
      = (⟨200, none⟩, ⟨some "FRESH", 3600500⟩, ⟨true, true⟩) := by
  constructor
  · intro now c1 c2 q s net d
    rfl
  · decide

/-- C3 counterexample.  A session issued at time 0 with a 1000 ms TTL
still verifies Valid at the boundary instant where the current time
equals the expiry exactly, while the claim demands Invalid there: the
source rejects only when the expiry is strictly in the past. -/
theorem session_boundary_still_valid :
    verifyToken macDemo (generateToken macDemo "k" 1000 0).token "k"
      (generateToken macDemo "k" 1000 0).expiresAt = true := by decide

/-- C3 amended.  A session issued with the configured TTL verifies
Valid at every time up to and including the expiry instant, and
Invalid strictly afterwards (hypotheses: nonnegative issue time, and a
MAC output that is nonempty and dot-free, as a hex HMAC digest is). -/
theorem session_validity_window (mac : String → String → String)
    (cfg : AuthConfig) (secret : String) (issueTime now : Int)
    (h0 : 0 ≤ issueTime)
    (hsne : mac secret (jsRenderInt (issueTime + TOKEN_TTL_MS_int cfg)) ≠ "")
    (hsnd : ∀ c ∈ (mac secret (jsRenderInt (issueTime + TOKEN_TTL_MS_int cfg))).data, c ≠ '.') :
    (now ≤ (generateToken mac secret (TOKEN_TTL_MS_int cfg) issueTime).expiresAt →
      verifyToken mac (generateToken mac secret (TOKEN_TTL_MS_int cfg) issueTime).token
        secret now = true)
    ∧ ((generateToken mac secret (TOKEN_TTL_MS_int cfg) issueTime).expiresAt < now →
      verifyToken mac (generateToken mac secret (TOKEN_TTL_MS_int cfg) issueTime).token
        secret now = false) := by
  have he : 0 ≤ issueTime + TOKEN_TTL_MS_int cfg := by
    have := TOKEN_TTL_MS_int_pos cfg
    omega
  have hv := verifyToken_issued_eq mac secret (issueTime + TOKEN_TTL_MS_int cfg) now he
    hsne hsnd
  constructor
  · intro hle
    rw [show (generateToken mac secret (TOKEN_TTL_MS_int cfg) issueTime).token
        = jsRenderInt (issueTime + TOKEN_TTL_MS_int cfg) ++ "."
          ++ mac secret (jsRenderInt (issueTime + TOKEN_TTL_MS_int cfg)) from rfl, hv]
    have : ¬(issueTime + TOKEN_TTL_MS_int cfg < now) := not_lt.mpr hle
    simp [this]
  · intro hlt
    rw [show (generateToken mac secret (TOKEN_TTL_MS_int cfg) issueTime).token
        = jsRenderInt (issueTime + TOKEN_TTL_MS_int cfg) ++ "."
          ++ mac secret (jsRenderInt (issueTime + TOKEN_TTL_MS_int cfg)) from rfl, hv]
    have : issueTime + TOKEN_TTL_MS_int cfg < now := hlt
    simp [this]

/-- C3 witness: with the default 24-hour TTL a session issued at time 0
verifies Valid at exactly 86400000 ms and Invalid at 86400001 ms. -/
theorem session_validity_window_witness :
    verifyToken macDemo (generateToken macDemo "k"
        (TOKEN_TTL_MS_int ⟨some "pw", none, none⟩) 0).token "k" 86400000 = true
    ∧ verifyToken macDemo (generateToken macDemo "k"
        (TOKEN_TTL_MS_int ⟨some "pw", none, none⟩) 0).token "k" 86400001 = false := by
  have h := session_validity_window macDemo ⟨some "pw", none, none⟩ "k" 0 86400000
    (by norm_num) (by decide) (by decide)
  have h2 := session_validity_window macDemo ⟨some "pw", none, none⟩ "k" 0 86400001
    (by norm_num) (by decide) (by decide)
  exact ⟨h.1 (by decide), h2.2 (by decide)⟩

/-- C9 counterexample.  On the token 0100.kx100 at time 50 with secret
k under the concrete MAC, auth.js verifyToken accepts (it re-renders
the parsed expiry 100 before recomputing the MAC) while the proxy
verifyAuth rejects (it MACs the raw substring 0100): the two
verification routines disagree. -/
theorem verify_variants_disagree :
    verifyToken macDemo "0100.kx100" "k" 50 = true
    ∧ verifyAuthTok macDemo "k" "0100.kx100" 50 = false := by decide

/-- C9 amended.  Whenever the expiry component of the token is in
canonical decimal form (its numeric re-rendering equals the raw
substring), auth.js verifyToken and the handlers verifyAuth compute
the same verdict; tokens produced by generateToken are of this form. -/
theorem verify_variants_agree_on_canonical (mac : String → String → String)
    (secret token : String) (now : Int)
    (hcanon : ∀ v : Int, jsNumberInt ⟨(splitDot token).headD []⟩ = some v →
      jsRenderInt v = ⟨(splitDot token).headD []⟩) :
    verifyToken mac token secret now = verifyAuthTok mac secret token now := by
  by_cases ht : token = ""
  · subst ht
    rfl
  · simp only [verifyToken, verifyAuthTok]
    rw [if_neg ht]
    cases hj : jsNumberInt ⟨(splitDot token).headD []⟩ with
    | none => rfl
    | some v =>
      have hr := hcanon v hj
      simp only [sign, hr]

/-- C9 witness: on a canonical token both routines agree (and accept). -/
theorem verify_variants_agree_on_canonical_witness :
    verifyToken macDemo "1000.kx1000" "k" 500 = verifyAuthTok macDemo "k" "1000.kx1000" 500
    ∧ verifyToken macDemo "1000.kx1000" "k" 500 = true := by
  refine ⟨verify_variants_agree_on_canonical macDemo "k" "1000.kx1000" 500 ?_, by decide⟩
  intro v hv
  have h1 : jsNumberInt ⟨(splitDot "1000.kx1000").headD []⟩ = some 1000 := by decide
  rw [h1] at hv
  cases hv
  decide

/-- C10.  Verification inspects only the first two dot-separated
components: appending a dot and any suffix to a token accepted by
either routine leaves it accepted. -/
theorem verify_ignores_trailing_components (mac : String → String → String)
    (secret token suffix : String) (now : Int) :
    (verifyToken mac token secret now = true →
      verifyToken mac (token ++ "." ++ suffix) secret now = true)
    ∧ (verifyAuthTok mac secret token now = true →
      verifyAuthTok mac secret (token ++ "." ++ suffix) now = true) := by
  have hne2 : (token ++ "." ++ suffix) ≠ "" := by
    apply string_ne_empty_of_data
    rw [string_data_triple]
    simp
  constructor
  · intro h
    obtain ⟨p0, p1, rest, hps⟩ := splitDot_two_of_signature (verifyToken_true_signature h)
    have hne1 : token ≠ "" := by
      intro hc
      unfold verifyToken at h
      rw [if_pos hc] at h
      cases h
    rw [← h]
    apply verifyToken_eq_of_parts mac secret now _ _ hne2 hne1
    · rw [splitDot_trailing hps, hps]
      rfl
    · rw [splitDot_trailing hps, hps]
      simp
  · intro h
    obtain ⟨p0, p1, rest, hps⟩ := splitDot_two_of_signature (verifyAuthTok_true_signature h)
    rw [← h]
    apply verifyAuthTok_eq_of_parts mac secret now
    · rw [splitDot_trailing hps, hps]
      rfl
    · rw [splitDot_trailing hps, hps]
      simp

/-- C10 witness: a concrete accepted token stays accepted with a junk
trailing component. -/
theorem verify_ignores_trailing_components_witness :
    verifyToken macDemo ("1000.kx1000" ++ "." ++ "junk") "k" 500 = true
    ∧ verifyAuthTok macDemo "k" ("1000.kx1000" ++ "." ++ "junk") 500 = true := by
  have h := verify_ignores_trailing_components macDemo "k" "1000.kx1000" "junk" 500
  exact ⟨h.1 (by decide), h.2 (by decide)⟩

/-- Boolean guard of the cache fast path is false when its propositional
reading fails. -/
theorem cache_guard_false {b : Bool} {p : Prop} [Decidable p]
    (h : ¬(b = true ∧ p)) : (b && decide p) = false := by
  cases hb : b
  · simp
  · simp only [Bool.true_and]
    exact decide_eq_false fun hp => h ⟨hb, hp⟩

theorem jsOrStr_some_ne (a : Option String) (pw : String) (h : pw ≠ "") :
    jsOrStr a (some pw) ≠ "" := by
  unfold jsOrStr
  by_cases hsa : a.getD "" = ""
  · simp [hsa, h]
  · simp [hsa]

/-- Every caller arriving while a flight is pending joins that flight
and the state is untouched. -/
theorem runStartsSF_joined (m : Nat) (f : Nat) (now : Int) (s : SfState)
    (hc : s.cachedAccessToken = none) (hp : s.tokenPromise = some f) :
    ∀ fid, runStartsSF m fid now s = (List.replicate m (.joined f), s) := by
  induction m with
  | zero => intro fid; rfl
  | succ m ih =>
    intro fid
    have hstart : getAccessTokenStartSF false now s fid = (.joined f, s) := by
      unfold getAccessTokenStartSF
      rw [hc, hp]
      rfl
    unfold runStartsSF
    rw [hstart]
    dsimp only
    rw [ih (fid + 1)]
    rfl

/-- C2 counterexample.  Two concurrent Acquire calls against the plain
getAccessToken of tickets.js with a cold cache each issue their own
outbound refresh call: two exchanges are in flight at once, not one. -/
theorem plain_cache_concurrent_double_refresh :
    (runStartsPlain 2 1000 ⟨none, 0⟩).count true = 2 ∧ (2 : Nat) ≠ 1 := by
  constructor
  · decide
  · decide

/-- C2 amended.  For the part_000 single-flight variant the claim
holds: n concurrent cold-cache callers trigger exactly one outbound
exchange (the first caller starts it, every later caller joins it) and
every caller receives the result of that single flight. -/
theorem singleflight_cold_run_single_exchange (n : Nat) (now : Int)
    (r : Except OAuthErr String) (hn : 1 ≤ n) :
    ((runStartsSF n 0 now ⟨none, 0, none⟩).1.countP isStarted = 1)
    ∧ ∀ o ∈ (runStartsSF n 0 now ⟨none, 0, none⟩).1, callerResult o r = r := by
  obtain ⟨m, rfl⟩ : ∃ m, n = m + 1 := ⟨n - 1, by omega⟩
  have hstart : getAccessTokenStartSF false now ⟨none, 0, none⟩ 0
      = (.started 0, ⟨none, 0, some 0⟩) := by
    unfold getAccessTokenStartSF
    rfl
  have hrun : runStartsSF (m + 1) 0 now ⟨none, 0, none⟩
      = (AcquireStart.started 0 :: List.replicate m (.joined 0), ⟨none, 0, some 0⟩) := by
    unfold runStartsSF
    rw [hstart]
    dsimp only
    rw [runStartsSF_joined m 0 now ⟨none, 0, some 0⟩ rfl rfl (0 + 1)]
  rw [hrun]
  constructor
  · rw [List.countP_cons]
    have hz : (List.replicate m (AcquireStart.joined 0)).countP isStarted = 0 := by
      rw [List.countP_eq_zero]
      intro o ho
      rw [List.eq_of_mem_replicate ho]
      decide
    simp [hz, isStarted]
  · intro o ho
    rcases List.mem_cons.mp ho with rfl | hmem
    · rfl
    · rw [List.eq_of_mem_replicate hmem]
      rfl

/-- C2 witness: three concurrent cold-cache callers of the
single-flight variant perform exactly one exchange and all read the
flight result. -/
theorem singleflight_cold_run_single_exchange_witness :
    ((runStartsSF 3 0 12345 ⟨none, 0, none⟩).1.countP isStarted = 1)
    ∧ ∀ o ∈ (runStartsSF 3 0 12345 ⟨none, 0, none⟩).1,
        callerResult o (.ok "TOK") = .ok "TOK" :=
  singleflight_cold_run_single_exchange 3 12345 (.ok "TOK") (by norm_num)

/-- C4 counterexample.  A rate-limited OAuth denial (Access Denied,
too many requests) surfacing through the tickets.js handler produces
status 500, not the 429 the claim requires of every handler: only the
part_000 variant classifies rate limiting. -/
theorem tickets_rate_limited_surfaces_500 :
    (ticketsHandler macDemo ⟨some "pw", some "k", none⟩ 500
        ⟨some "authToken=1000.kx1000", some "1"⟩ ⟨none, 0⟩
        ⟨false, "", none, some "Access Denied", some "too many requests"⟩ 200).1.statusCode
      = 500
    ∧ (classifyOAuthError
        ⟨false, "", none, some "Access Denied", some "too many requests"⟩).rateLimited = true
    ∧ (500 : Nat) ≠ 429 := by
  refine ⟨by decide, by decide, by decide⟩

/-- C4 amended.  When the refresh exchange fails past the fast path
under a verified session, the part_000 ticketMessages handler maps the
failure to 429 exactly when it is classified rate-limited and to 500
otherwise, while the tickets.js handler maps every OAuth failure to
500. -/
theorem oauth_failure_status_classification (mac : String → String → String)
    (cfg : AuthConfig) (now : Int) (event : Event) (tid : String)
    (sp : TokenCache) (ss : SfState) (net : OAuthResponse) (down : Nat)
    (hauth : verifyAuth mac cfg now event = true)
    (hq : event.queryId = some tid)
    (hsp : ¬(sp.cachedAccessToken.isSome = true ∧ now < sp.accessTokenExpiry - 60000))
    (hss : ¬(ss.cachedAccessToken.isSome = true ∧ now < ss.accessTokenExpiry - 60000))
    (hfail : net.ok = false) :
    (ticketMessagesHandler mac cfg now event ss net down).1.statusCode
      = (if (classifyOAuthError net).rateLimited then 429 else 500)
    ∧ (ticketsHandler mac cfg now event sp net down).1.statusCode = 500 := by
  have hacq : getAccessTokenPlain now sp net = (.error ⟨false⟩, sp, true) := by
    unfold getAccessTokenPlain
    rw [cache_guard_false hsp, hfail]
    rfl
  have hacqs : getAccessTokenSF1 false now ss net
      = (.error (classifyOAuthError net), { ss with tokenPromise := none }, true) := by
    unfold getAccessTokenSF1
    rw [show (!false && ss.cachedAccessToken.isSome
        && decide (now < ss.accessTokenExpiry - 60000)) = false by
      simp only [Bool.not_false, Bool.true_and]
      exact cache_guard_false hss]
    unfold flightResult resolveFlightSF
    rw [hfail]
    rfl
  constructor
  · unfold ticketMessagesHandler
    rw [hauth, hq, hacqs]
    rfl
  · unfold ticketsHandler
    rw [hauth, hacq]
    rfl

/-- C4 witness: the part_000 handler answers 429 on the rate-limited
denial and the tickets.js handler answers 500 on the same denial. -/
theorem oauth_failure_status_classification_witness :
    (ticketMessagesHandler macDemo ⟨some "pw", some "k", none⟩ 500
        ⟨some "authToken=1000.kx1000", some "1"⟩ ⟨none, 0, none⟩
        ⟨false, "", none, some "Access Denied", some "too many requests"⟩ 200).1.statusCode
      = 429
    ∧ (ticketsHandler macDemo ⟨some "pw", some "k", none⟩ 500
        ⟨some "authToken=1000.kx1000", some "1"⟩ ⟨none, 0⟩
        ⟨false, "", none, some "Access Denied", some "too many requests"⟩ 200).1.statusCode
      = 500 := by
  have h := oauth_failure_status_classification macDemo ⟨some "pw", some "k", none⟩ 500
    ⟨some "authToken=1000.kx1000", some "1"⟩ "1" ⟨none, 0⟩ ⟨none, 0, none⟩
    ⟨false, "", none, some "Access Denied", some "too many requests"⟩ 200
    (by decide) rfl (by decide) (by decide) rfl
  exact ⟨h.1.trans (by decide), h.2⟩

/-- C5.  The Acquire fast path: with a cached token and the current
time strictly before expiry minus 60000 ms, the cached token is
returned with no outbound call and no state change (both in the plain
and in the single-flight variant without forceRefresh); outside that
window the cached token is never served: the call issues the refresh
exchange and, on success, returns the token of that fresh exchange. -/
theorem acquire_fast_path_and_stale_refresh (now : Int) (s : TokenCache)
    (ss : SfState) (net : OAuthResponse) (t u : String) :
    (s.cachedAccessToken = some t → now < s.accessTokenExpiry - 60000 →
      getAccessTokenPlain now s net = (.ok t, s, false))
    ∧ (¬(s.cachedAccessToken.isSome = true ∧ now < s.accessTokenExpiry - 60000) →
      (getAccessTokenPlain now s net).2.2 = true
      ∧ (net.ok = true → (getAccessTokenPlain now s net).1 = .ok net.access_token))
    ∧ (ss.cachedAccessToken = some u → now < ss.accessTokenExpiry - 60000 →
      getAccessTokenSF1 false now ss net = (.ok u, ss, false))
    ∧ (¬(ss.cachedAccessToken.isSome = true ∧ now < ss.accessTokenExpiry - 60000) →
      (getAccessTokenSF1 false now ss net).2.2 = true
      ∧ (net.ok = true → (getAccessTokenSF1 false now ss net).1 = .ok net.access_token)) := by
  refine ⟨?_, ?_, ?_, ?_⟩
  · intro hc hlt
    unfold getAccessTokenPlain
    rw [hc]
    simp [hlt]
  · intro hst
    unfold getAccessTokenPlain
    rw [cache_guard_false hst]
    constructor
    · cases hok : net.ok <;> rfl
    · intro hok
      rw [hok]
      rfl
  · intro hc hlt
    unfold getAccessTokenSF1
    rw [hc]
    simp [hlt]
  · intro hst
    unfold getAccessTokenSF1
    rw [show (!false && ss.cachedAccessToken.isSome
        && decide (now < ss.accessTokenExpiry - 60000)) = false by
      simp only [Bool.not_false, Bool.true_and]
      exact cache_guard_false hst]
    unfold flightResult
    constructor
    · rfl
    · intro hok
      rw [hok]
      rfl

/-- C5 witness: a fresh cached token is served untouched 61 seconds
before expiry, and 59 seconds before expiry the exchange is performed
and its fresh token returned. -/
theorem acquire_fast_path_and_stale_refresh_witness :
    getAccessTokenPlain 0 ⟨some "CACHED", 61000⟩ ⟨true, "NEW", some 3600, none, none⟩
      = (.ok "CACHED", ⟨some "CACHED", 61000⟩, false)
    ∧ (getAccessTokenPlain 0 ⟨some "CACHED", 59000⟩
        ⟨true, "NEW", some 3600, none, none⟩).2.2 = true
    ∧ (getAccessTokenPlain 0 ⟨some "CACHED", 59000⟩
        ⟨true, "NEW", some 3600, none, none⟩).1 = .ok "NEW" := by
  have h1 := acquire_fast_path_and_stale_refresh 0 ⟨some "CACHED", 61000⟩
    ⟨none, 0, none⟩ ⟨true, "NEW", some 3600, none, none⟩ "CACHED" ""
  have h2 := acquire_fast_path_and_stale_refresh 0 ⟨some "CACHED", 59000⟩
    ⟨none, 0, none⟩ ⟨true, "NEW", some 3600, none, none⟩ "CACHED" ""
  refine ⟨h1.1 rfl (by decide), (h2.2.1 (by decide)).1, (h2.2.1 (by decide)).2 rfl⟩

/-- C6.  The resolution-update retry policy: at most one retry ever
happens; a 401 first response clears the cache, acquires a fresh token
and retries exactly once with that fresh token, surfacing the retry
outcome (or the acquisition failure); a successful first update and a
non-401 failure issue no retry, the latter surfacing the error. -/
theorem resolution_retry_once_policy (s : TokenCache) (now : Int)
    (firstStatus : Nat) (net : OAuthResponse) (retryStatus : Nat) :
    ((resolutionUpdatePhase s now firstStatus net retryStatus).updateCalls ≤ 2)
    ∧ (isOk firstStatus = true →
        resolutionUpdatePhase s now firstStatus net retryStatus = ⟨1, false, none, true, s⟩)
    ∧ (firstStatus = 401 → net.ok = true →
        (resolutionUpdatePhase s now firstStatus net retryStatus).cacheCleared = true
        ∧ (resolutionUpdatePhase s now firstStatus net retryStatus).updateCalls = 2
        ∧ (resolutionUpdatePhase s now firstStatus net retryStatus).retryToken
            = some net.access_token
        ∧ (resolutionUpdatePhase s now firstStatus net retryStatus).success
            = isOk retryStatus)
    ∧ (firstStatus = 401 → net.ok = false →
        (resolutionUpdatePhase s now firstStatus net retryStatus).updateCalls = 1
        ∧ (resolutionUpdatePhase s now firstStatus net retryStatus).success = false
        ∧ (resolutionUpdatePhase s now firstStatus net retryStatus).cacheCleared = true)
    ∧ (isOk firstStatus = false → firstStatus ≠ 401 →
        resolutionUpdatePhase s now firstStatus net retryStatus
          = ⟨1, false, none, false, s⟩) := by
  refine ⟨?_, ?_, ?_, ?_, ?_⟩
  · unfold resolutionUpdatePhase
    dsimp only
    split
    · simp
    · split
      · split
        · split <;> simp
        · simp
      · simp
  · intro hok
    unfold resolutionUpdatePhase
    rw [if_pos hok]
  · intro h401 hok
    subst h401
    have hacq : getAccessTokenPlain now (⟨none, 0⟩ : TokenCache) net
        = (.ok net.access_token,
            ⟨some net.access_token, now + jsOrNum net.expires_in 3600 * 1000⟩, true) := by
      unfold getAccessTokenPlain
      rw [hok]
      rfl
    unfold resolutionUpdatePhase
    rw [if_neg (by decide : ¬isOk 401 = true), if_pos rfl]
    dsimp only
    rw [hacq]
    cases hret : isOk retryStatus <;> simp [hret]
  · intro h401 hfail
    subst h401
    have hacq : getAccessTokenPlain now (⟨none, 0⟩ : TokenCache) net
        = (.error ⟨false⟩, ⟨none, 0⟩, true) := by
      unfold getAccessTokenPlain
      rw [hfail]
      rfl
    unfold resolutionUpdatePhase
    rw [if_neg (by decide : ¬isOk 401 = true), if_pos rfl]
    dsimp only
    rw [hacq]
    simp
  · intro hfail hne
    unfold resolutionUpdatePhase
    rw [if_neg (by simp [hfail]), if_neg hne]

/-- C6 witness: a 401 first response with a successful re-exchange and
a 200 retry yields one cleared cache, two update calls and success
with the fresh token. -/
theorem resolution_retry_once_policy_witness :
    ((resolutionUpdatePhase ⟨some "OLD", 999999⟩ 500 401
        ⟨true, "NEW", some 3600, none, none⟩ 200).updateCalls ≤ 2)
    ∧ (resolutionUpdatePhase ⟨some "OLD", 999999⟩ 500 401
        ⟨true, "NEW", some 3600, none, none⟩ 200).cacheCleared = true
    ∧ (resolutionUpdatePhase ⟨some "OLD", 999999⟩ 500 401
        ⟨true, "NEW", some 3600, none, none⟩ 200).retryToken = some "NEW"
    ∧ (resolutionUpdatePhase ⟨some "OLD", 999999⟩ 500 401
        ⟨true, "NEW", some 3600, none, none⟩ 200).success = true := by
  have h := resolution_retry_once_policy ⟨some "OLD", 999999⟩ 500 401
    ⟨true, "NEW", some 3600, none, none⟩ 200
  have h3 := h.2.2.1 rfl rfl
  exact ⟨h.1, h3.1, h3.2.2.1, h3.2.2.2.trans (by decide)⟩

/-- C8.  Every supplied password other than the configured portal
password, the empty password included and regardless of its length, is
rejected by the session endpoint with the one fixed 401 response that
carries no indication of which check failed. -/
theorem wrong_password_uniform_reject (mac : String → String → String)
    (cfg : AuthConfig) (now : Int) (P pw : String)
    (hpw : cfg.PORTAL_PASSWORD = some pw) (hne : pw ≠ "") (hP : P ≠ pw) :
    authHandlerPost mac cfg now P = ⟨401, some "Mot de passe incorrect", none, none⟩ := by
  unfold authHandlerPost
  rw [hpw]
  simp only [Option.getD_some]
  have hsec := jsOrStr_some_ne cfg.AUTH_SECRET pw hne
  have hcond : ¬((decide (jsOrStr cfg.AUTH_SECRET (some pw) = "")
      || decide (pw = "")) = true) := by
    simp [hsec, hne]
  rw [if_neg hcond]
  by_cases hP0 : P = ""
  · rw [if_pos hP0]
  · rw [if_neg hP0]
    have htse : timingSafeEqual P pw = false := by
      cases h : timingSafeEqual P pw
      · rfl
      · exact absurd ((timingSafeEqual_iff P pw).mp h) hP
    rw [htse]
    rfl

/-- C8 witness: a wrong password of the same length, a longer one and
the empty one all obtain the identical 401 response. -/
theorem wrong_password_uniform_reject_witness :
    authHandlerPost macDemo ⟨some "pw", some "k", none⟩ 0 "Pw"
      = ⟨401, some "Mot de passe incorrect", none, none⟩
    ∧ authHandlerPost macDemo ⟨some "pw", some "k", none⟩ 0 "pwpwpw"
      = ⟨401, some "Mot de passe incorrect", none, none⟩
    ∧ authHandlerPost macDemo ⟨some "pw", some "k", none⟩ 0 ""
      = ⟨401, some "Mot de passe incorrect", none, none⟩ :=
  ⟨wrong_password_uniform_reject macDemo _ 0 "Pw" "pw" rfl (by decide) (by decide),
   wrong_password_uniform_reject macDemo _ 0 "pwpwpw" "pw" rfl (by decide) (by decide),
   wrong_password_uniform_reject macDemo _ 0 "" "pw" rfl (by decide) (by decide)⟩

end ZohoDesk
